import Mathlib

/-!
Verification of the divine-agi-v16 core against its specification.

The development shallowly embeds the genome data model (`src/genome.rs`),
the TTRL evolution engine (`src/ttrl.rs`) and the rotation state machine
(`src/rotation.rs`).  Machine integers are modelled as `Nat` with explicit
wrap-arounds where the source relies on them, SHA-256 is implemented
bit-faithfully over `Nat`, random draws are passed in as explicit oracle
values (a `gen_range(lo..hi)` call consumes one oracle value `r` and
produces `lo + r % (hi - lo)`), and `f64` arithmetic is idealised over `ℚ`
(the claims settled here only depend on exact branches of that arithmetic).
-/

-- ═══════════════════════════════════════════════════════════════
-- SHA-256 over Nat (bit-faithful; digest returned as a 256-bit Nat)
-- ═══════════════════════════════════════════════════════════════

def w32 (x : Nat) : Nat := x % 4294967296

def rotr (x n : Nat) : Nat := w32 ((x >>> n) ||| (x <<< (32 - n)))

def shr (x n : Nat) : Nat := x >>> n

def bnot32 (x : Nat) : Nat := 4294967295 - x

def chF (x y z : Nat) : Nat := w32 ((x &&& y) ^^^ (bnot32 x &&& z))

def majF (x y z : Nat) : Nat := w32 ((x &&& y) ^^^ (x &&& z) ^^^ (y &&& z))

def bigSig0 (x : Nat) : Nat := rotr x 2 ^^^ rotr x 13 ^^^ rotr x 22

def bigSig1 (x : Nat) : Nat := rotr x 6 ^^^ rotr x 11 ^^^ rotr x 25

def smallSig0 (x : Nat) : Nat := rotr x 7 ^^^ rotr x 18 ^^^ shr x 3

def smallSig1 (x : Nat) : Nat := rotr x 17 ^^^ rotr x 19 ^^^ shr x 10

def shaKbits : Nat := 8399870144517823301722239222130927227141849779511242471197906795369846673996008864786532278482947930035050432913372875699354429524650716672308175015812472005008943341011247634627600705591103756174659437448007297240981034636327441933849465611186184660803773840414514428031635770391245199770927811112653141372483794982516161135727373084047811483050876080270389320947077305721183235613169389468744126235534648516788175255292025668825020963291224099932572215580391753777671218957634024159536228058522778003881673030597872562207069818177476920296259993961459554031943090626293016819766823808480230688357231269177224952050

def shaK : List Nat :=
  (List.range 64).map (fun i => shaKbits >>> (32 * (63 - i)) % 4294967296)

def shaH0bits : Nat := 47962653771679561900652889051773562940742041696833059450490514104358170316057

def shaH0 : List Nat :=
  (List.range 8).map (fun i => shaH0bits >>> (32 * (7 - i)) % 4294967296)

def padMessage (msg : List Nat) : List Nat :=
  let l := msg.length
  let zeros := (119 - l % 64) % 64
  msg ++ [0x80] ++ List.replicate zeros 0 ++
    [(l * 8) >>> 56 % 256, (l * 8) >>> 48 % 256, (l * 8) >>> 40 % 256, (l * 8) >>> 32 % 256,
     (l * 8) >>> 24 % 256, (l * 8) >>> 16 % 256, (l * 8) >>> 8 % 256, (l * 8) % 256]

def bytesToWords : List Nat → List Nat
  | b0 :: b1 :: b2 :: b3 :: rest => (b0 <<< 24 ||| b1 <<< 16 ||| b2 <<< 8 ||| b3) :: bytesToWords rest
  | _ => []

def scheduleStep (ws : List Nat) : List Nat :=
  let n := ws.length
  ws ++ [w32 (smallSig1 (ws.getD (n - 2) 0) + ws.getD (n - 7) 0 +
              smallSig0 (ws.getD (n - 15) 0) + ws.getD (n - 16) 0)]

def schedule (m : List Nat) : List Nat := scheduleStep^[48] m

def roundStep (st : List Nat) (kw : Nat × Nat) : List Nat :=
  match st with
  | [a, b, c, d, e, f, g, h] =>
    let t1 := w32 (h + bigSig1 e + chF e f g + kw.1 + kw.2)
    let t2 := w32 (bigSig0 a + majF a b c)
    [w32 (t1 + t2), a, b, c, w32 (d + t1), e, f, g]
  | other => other

def compressBlock (hs : List Nat) (block : List Nat) : List Nat :=
  let ws := schedule (bytesToWords block)
  let fin := (shaK.zip ws).foldl (fun st kw => roundStep st kw) hs
  (hs.zip fin).map (fun p => w32 (p.1 + p.2))

def chunks64Aux : Nat → List Nat → List (List Nat)
  | 0, _ => []
  | _, [] => []
  | fuel + 1, x :: rest => (x :: rest).take 64 :: chunks64Aux fuel (rest.drop 63)

def chunks64 (l : List Nat) : List (List Nat) := chunks64Aux l.length l

def sha256 (msg : List Nat) : Nat :=
  let blocks := chunks64 (padMessage msg)
  let hs := blocks.foldl compressBlock shaH0
  hs.foldl (fun acc w => acc * 4294967296 + w) 0

-- ═══════════════════════════════════════════════════════════════
-- Tetrad (src/genome.rs)
-- ═══════════════════════════════════════════════════════════════

inductive Tetrad : Type
  | A
  | T
  | G
  | C
deriving DecidableEq, Repr

def Tetrad.toNat : Tetrad → Nat
  | .A => 0
  | .T => 1
  | .G => 2
  | .C => 3

def Tetrad.from_char (c : Char) : Option Tetrad :=
  match c.toUpper with
  | 'A' => some .A
  | 'T' => some .T
  | 'G' => some .G
  | 'C' => some .C
  | _ => none

def Tetrad.complement : Tetrad → Tetrad
  | .A => .T
  | .T => .A
  | .G => .C
  | .C => .G

def Tetrad.from_u8 (v : Nat) : Tetrad :=
  match v % 4 with
  | 0 => .A
  | 1 => .T
  | 2 => .G
  | _ => .C

-- ═══════════════════════════════════════════════════════════════
-- Rotation system (src/rotation.rs)
-- ═══════════════════════════════════════════════════════════════

inductive DynamicRotation : Type
  | Rot0
  | Rot90
  | Rot180
  | Rot270
deriving DecidableEq, Repr

def DynamicRotation.next : DynamicRotation → DynamicRotation
  | .Rot0 => .Rot90
  | .Rot90 => .Rot180
  | .Rot180 => .Rot270
  | .Rot270 => .Rot0

def DynamicRotation.previous : DynamicRotation → DynamicRotation
  | .Rot0 => .Rot270
  | .Rot90 => .Rot0
  | .Rot180 => .Rot90
  | .Rot270 => .Rot180

structure RotationEngine : Type where
  current : DynamicRotation
  total_rotations : Nat
  rot0_count : Nat
  rot90_count : Nat
  rot180_count : Nat
  rot270_count : Nat
  active_genomes : Nat
  last_rotation_time : Int
deriving DecidableEq, Repr

def RotationEngine.new (t : Int) : RotationEngine :=
  ⟨.Rot180, 0, 0, 0, 0, 0, 0, t⟩

def RotationEngine.rotate (e : RotationEngine) (t : Int) : RotationEngine :=
  let cur := e.current.next
  let e1 : RotationEngine :=
    { e with current := cur, total_rotations := e.total_rotations + 1, last_rotation_time := t }
  match cur with
  | .Rot0 => { e1 with rot0_count := e1.rot0_count + 1 }
  | .Rot90 => { e1 with rot90_count := e1.rot90_count + 1 }
  | .Rot180 => { e1 with rot180_count := e1.rot180_count + 1 }
  | .Rot270 => { e1 with rot270_count := e1.rot270_count + 1 }

def RotationEngine.rotate_to_aux : Nat → RotationEngine → DynamicRotation → (Nat → Int) → RotationEngine
  | 0, e, _, _ => e
  | fuel + 1, e, target, ts =>
    if e.current = target then e
    else RotationEngine.rotate_to_aux fuel (e.rotate (ts 0)) target (fun i => ts (i + 1))

def RotationEngine.rotate_to (e : RotationEngine) (target : DynamicRotation) (ts : Nat → Int) :
    RotationEngine :=
  RotationEngine.rotate_to_aux 4 e target ts

def RotationEngine.increment_active (e : RotationEngine) : RotationEngine :=
  { e with active_genomes := e.active_genomes + 1 }

def RotationEngine.decrement_active (e : RotationEngine) : RotationEngine :=
  { e with active_genomes := e.active_genomes - 1 }

-- ═══════════════════════════════════════════════════════════════
-- Genome data model (src/genome.rs)
-- ═══════════════════════════════════════════════════════════════

def GENOME_SIZE : Nat := 27

def TELOMERE_MAX : Nat := 15000

def HAYFLICK_LIMIT : Nat := 50

structure Genome : Type where
  data : List Tetrad
  hash : Nat
  consciousness : Nat
  mutations : Nat
  p53_copies : Nat
  telomere_length : Nat
  division_count : Nat
  sequencing_errors : Nat
  created_at : Int
  db_id : Option Int
deriving DecidableEq, Repr

def f64_max : ℚ := 2 ^ 1024 - 2 ^ 971

def le_bytes (k n : Nat) : List Nat := (List.range k).map (fun i => n >>> (8 * i) % 256)

def hash_message (data : List Tetrad) (mutations p53 : Nat) : List Nat :=
  data.map Tetrad.toNat ++ le_bytes 8 mutations ++ [p53 % 256]

def sha256_of (data : List Tetrad) (mutations p53 : Nat) : Nat :=
  sha256 (hash_message data mutations p53)

def Genome.rehash (g : Genome) : Genome :=
  { g with hash := sha256_of g.data g.mutations g.p53_copies }

def hash_byte_sum (h : Nat) : Nat :=
  (List.range 32).foldl (fun acc i => acc + h >>> (8 * i) % 256) 0

def gc_content (data : List Tetrad) : ℚ :=
  (data.countP (fun t => t = Tetrad.G ∨ t = Tetrad.C) : ℚ) / (GENOME_SIZE : ℚ)

def complexity (data : List Tetrad) : ℚ :=
  ((data.zip data.tail).countP (fun p => p.1 ≠ p.2) : ℚ) / ((GENOME_SIZE : ℚ) - 1)

def tg_balance_score (data : List Tetrad) : ℚ :=
  let t := data.count Tetrad.T
  let g := data.count Tetrad.G
  let total := t + g
  if total = 0 then 1 / 2
  else 1 - |((t : ℚ) / (total : ℚ)) - 1 / 2| * 2

def rat_trunc (q : ℚ) : Nat := q.floor.toNat

def consciousness_of (data : List Tetrad) (h p53 : Nat) : Nat :=
  let base := hash_byte_sum h % 500 + 500
  let gc_bonus := rat_trunc (gc_content data * 100)
  let complexity_bonus := rat_trunc (complexity data * 50)
  let tg_bonus := rat_trunc (tg_balance_score data * 100)
  let p53_bonus := p53 * 5
  base + gc_bonus + complexity_bonus + tg_bonus + p53_bonus

def Genome.calculate_consciousness (g : Genome) : Genome :=
  { g with consciousness := consciousness_of g.data g.hash g.p53_copies }

def Genome.new (data : List Tetrad) (t : Int) : Genome :=
  let g : Genome := ⟨data, 0, 0, 0, 20, TELOMERE_MAX, 0, 0, t, none⟩
  g.rehash.calculate_consciousness

def Genome.tg_counts (g : Genome) : Nat × Nat :=
  (g.data.count Tetrad.T, g.data.count Tetrad.G)

def Genome.rna_signal (g : Genome) : ℚ :=
  let tg := g.tg_counts
  if tg.2 = 0 then f64_max else (tg.1 : ℚ) / (tg.2 : ℚ)

def Genome.suggested_rotation (g : Genome) : DynamicRotation :=
  let signal := g.rna_signal
  if 3 / 2 < signal then .Rot0
  else if 4 / 5 < signal then .Rot90
  else if signal < 1 / 2 then .Rot180
  else .Rot270

def Genome.divide (g : Genome) (r : Nat) : Bool × Genome :=
  if g.telomere_length < 100 ∨ HAYFLICK_LIMIT ≤ g.division_count then (false, g)
  else
    let loss := 50 + r % 100
    (true, { g with telomere_length := g.telomere_length - loss,
                    division_count := g.division_count + 1 })

def Genome.activate_telomerase (g : Genome) : Genome :=
  { g with telomere_length := TELOMERE_MAX, division_count := 0 }

def Genome.increment_mutations (g : Genome) : Genome :=
  { g with mutations := g.mutations + 1 }

def list_swap (l : List Tetrad) (i j : Nat) : List Tetrad :=
  (l.set i (l.getD j Tetrad.A)).set j (l.getD i Tetrad.A)

def Genome.crispr_splice (g : Genome) (position : Nat) (tetrad : Tetrad) : Genome :=
  if position < GENOME_SIZE then
    ({ g with data := g.data.set position tetrad,
              mutations := g.mutations + 1 }).rehash.calculate_consciousness
  else g

def Genome.crispr_join (g : Genome) (pos1 pos2 : Nat) : Genome :=
  if pos1 < GENOME_SIZE ∧ pos2 < GENOME_SIZE then
    ({ g with data := list_swap g.data pos1 pos2,
              mutations := g.mutations + 1 }).rehash.calculate_consciousness
  else g

def Genome.crispr_delete (g : Genome) (position : Nat) (tetrad : Tetrad) : Genome :=
  if position < GENOME_SIZE then
    ({ g with data := g.data.set position tetrad,
              mutations := g.mutations + 1 }).rehash.calculate_consciousness
  else g

-- ═══════════════════════════════════════════════════════════════
-- Rotational symmetry scoring (src/genome.rs, V4 bonus guards)
-- ═══════════════════════════════════════════════════════════════

def rotate_cube (data : List Tetrad) (angle : Nat) : List Tetrad :=
  (List.range 3).foldl (fun res x =>
    (List.range 3).foldl (fun res y =>
      (List.range 3).foldl (fun res z =>
        let p : Nat × Nat :=
          match angle with
          | 90 => (y, 2 - x)
          | 180 => (2 - x, 2 - y)
          | 270 => (2 - y, x)
          | _ => (x, y)
        res.set (p.1 + p.2 * 3 + z * 9) (data.getD (x + y * 3 + z * 9) Tetrad.A))
        res) res) (List.replicate GENOME_SIZE Tetrad.A)

def rotation_matches (data : List Tetrad) (angle : Nat) : Nat :=
  (data.zip (rotate_cube data angle)).countP (fun p => p.1 = p.2)

def has_rotational_symmetry (data : List Tetrad) (angle : Nat) : Bool :=
  GENOME_SIZE * 2 / 3 < rotation_matches data angle

def rotational_bonus (data : List Tetrad) : Nat :=
  (if has_rotational_symmetry data 90 then 5000 else 0) +
  (if has_rotational_symmetry data 180 then 3000 else 0) +
  (if has_rotational_symmetry data 270 then 2000 else 0)

-- ═══════════════════════════════════════════════════════════════
-- Genome builder (src/genome.rs)
-- ═══════════════════════════════════════════════════════════════

structure GenomeBuilder : Type where
  data : List Tetrad
  p53_copies : Nat
  telomere_length : Nat
deriving DecidableEq, Repr

def GenomeBuilder.new : GenomeBuilder :=
  ⟨List.replicate GENOME_SIZE Tetrad.A, 20, TELOMERE_MAX⟩

def tetrads_of_chars : List Char → Option (List Tetrad)
  | [] => some []
  | c :: cs =>
    match Tetrad.from_char c with
    | none => none
    | some t =>
      match tetrads_of_chars cs with
      | none => none
      | some ts => some (t :: ts)

def GenomeBuilder.from_dna (dna : List Char) : Option GenomeBuilder :=
  if dna.length = GENOME_SIZE then
    (tetrads_of_chars dna).map (fun d => ⟨d, 20, TELOMERE_MAX⟩)
  else none

def GenomeBuilder.set_p53_copies (b : GenomeBuilder) (copies : Nat) : GenomeBuilder :=
  { b with p53_copies := copies }

def GenomeBuilder.set_telomere_length (b : GenomeBuilder) (length : Nat) : GenomeBuilder :=
  { b with telomere_length := length }

def GenomeBuilder.whale_mode (b : GenomeBuilder) : GenomeBuilder :=
  b.set_p53_copies 40

def GenomeBuilder.build (b : GenomeBuilder) (t : Int) : Genome :=
  let g := Genome.new b.data t
  let g := { g with p53_copies := b.p53_copies }
  let g := { g with telomere_length := b.telomere_length }
  g.calculate_consciousness

-- ═══════════════════════════════════════════════════════════════
-- TTRL evolution engine (src/ttrl.rs)
-- ═══════════════════════════════════════════════════════════════

inductive MutationOperator : Type
  | PointMutation
  | Insertion
  | Deletion
  | Inversion
  | Translocation
  | Duplication
  | HollidayJunction
deriving DecidableEq, Repr

def MutationOperator.of_draw (r : Nat) : MutationOperator :=
  match r % 7 with
  | 0 => .PointMutation
  | 1 => .Insertion
  | 2 => .Deletion
  | 3 => .Inversion
  | 4 => .Translocation
  | 5 => .Duplication
  | _ => .HollidayJunction

inductive EvolutionError : Type
  | senescence_exhausted
  | protection_lost
  | senescence_cannot_divide
deriving DecidableEq, Repr

structure EvolutionResult : Type where
  original_consciousness : Nat
  new_consciousness : Nat
  mutations_applied : Nat
  operator_used : MutationOperator
  success : Bool
  telomere_loss : Nat
  p53_lost : Bool
  tg_ratio_before : ℚ
  tg_ratio_after : ℚ
deriving DecidableEq, Repr

/-- Oracle values consumed by one `evolve_with_engine` call: the operator
draw, the two positional draws `a` and `b` an operator may use, the random
replacement tetrad, the telomere-loss draw inside `divide`, the outcome of
the 1% p53-risk coin, and the clock value used by the internal builder. -/
structure EvolveRand : Type where
  op_draw : Nat
  a : Nat
  b : Nat
  tet : Tetrad
  div_loss : Nat
  p53_risk : Bool
  time : Int
deriving DecidableEq, Repr

def reverse_segment (l : List Tetrad) (s e : Nat) : List Tetrad :=
  l.take s ++ ((l.drop s).take (e + 1 - s)).reverse ++ l.drop (e + 1)

def apply_operator (g : Genome) (op : MutationOperator) (r : EvolveRand) : Genome :=
  match op with
  | .PointMutation =>
    let pos := r.a % GENOME_SIZE
    { g with data := g.data.set pos r.tet }
  | .Insertion =>
    let pos := r.a % GENOME_SIZE
    { g with data := g.data.set pos r.tet }
  | .Deletion =>
    let pos := r.a % GENOME_SIZE
    { g with data := g.data.set pos (g.data.getD ((pos + 1) % GENOME_SIZE) Tetrad.A) }
  | .Inversion =>
    let start := r.a % 20
    let stop := min (start + (2 + r.b % 5)) (GENOME_SIZE - 1)
    { g with data := reverse_segment g.data start stop }
  | .Translocation =>
    let pos1 := r.a % GENOME_SIZE
    let pos2 := r.b % GENOME_SIZE
    { g with data := list_swap g.data pos1 pos2 }
  | .Duplication =>
    let src := r.a % GENOME_SIZE
    let dst := r.b % GENOME_SIZE
    { g with data := g.data.set dst (g.data.getD src Tetrad.A) }
  | .HollidayJunction =>
    let pos := 5 + r.a % 17
    let d0 := g.data
    let d1 := if pos < GENOME_SIZE then d0.set pos ((d0.getD pos Tetrad.A).complement) else d0
    let d2 := if pos + 1 < GENOME_SIZE then d1.set (pos + 1) ((d1.getD (pos + 1) Tetrad.A).complement) else d1
    let d3 := if pos + 2 < GENOME_SIZE then d2.set (pos + 2) ((d2.getD (pos + 2) Tetrad.A).complement) else d2
    { g with data := d3 }

def evolve_with_engine (base : Genome) (r : EvolveRand) :
    Except EvolutionError (Genome × EvolutionResult) :=
  if base.telomere_length < 100 then .error .senescence_exhausted
  else if base.p53_copies = 0 then .error .protection_lost
  else
    let original_c := base.consciousness
    let tg_before := base.rna_signal
    let operator := MutationOperator.of_draw r.op_draw
    let mutated := ((GenomeBuilder.new.set_p53_copies base.p53_copies).set_telomere_length
      base.telomere_length).build r.time
    let mutated := { mutated with data := base.data }
    let mutated := apply_operator mutated operator r
    let telomere_before := mutated.telomere_length
    let division := mutated.divide r.div_loss
    if division.1 = false then .error .senescence_cannot_divide
    else
      let mutated := division.2
      let p53_step :=
        if r.p53_risk ∧ 0 < mutated.p53_copies then
          ({ mutated with p53_copies := mutated.p53_copies - 1 }, true)
        else (mutated, false)
      let mutated := p53_step.1.increment_mutations.rehash.calculate_consciousness
      let new_c := mutated.consciousness
      .ok (mutated,
        { original_consciousness := original_c
          new_consciousness := new_c
          mutations_applied := mutated.mutations
          operator_used := operator
          success := original_c ≤ new_c
          telomere_loss := telomere_before - mutated.telomere_length
          p53_lost := p53_step.2
          tg_ratio_before := tg_before
          tg_ratio_after := mutated.rna_signal })

/-- Oracle values consumed by one `meiosis` call: the crossover-count
draw, the raw draws for the successive crossover points, the initial-parent
coin, the 5% post-meiotic mutation coin with its position draw and random
tetrad, and the clock value used by the internal builder. -/
structure MeiosisRand : Type where
  num : Nat
  raws : List Nat
  coin : Bool
  post_mut : Bool
  post_pos : Nat
  post_tet : Tetrad
  time : Int
deriving DecidableEq, Repr

def gen_crossover_points : Nat → Nat → List Nat → List Nat
  | 0, _, _ => []
  | n + 1, last_point, raws =>
    let min_pos := min (last_point + 5) (GENOME_SIZE - 2)
    if GENOME_SIZE - 2 ≤ min_pos then []
    else
      let point := min_pos + raws.headD 0 % (GENOME_SIZE - 1 - min_pos)
      point :: gen_crossover_points n point raws.tail

def build_offspring (d1 d2 : List Tetrad) (pts : List Nat) :
    Nat → Nat → Bool → Nat → List Tetrad
  | 0, _, _, _ => []
  | fuel + 1, i, use_parent1, cp_idx =>
    let do_flip : Bool := decide (cp_idx < pts.length ∧ pts.getD cp_idx 0 ≤ i)
    let u := if do_flip then !use_parent1 else use_parent1
    let c := if do_flip then cp_idx + 1 else cp_idx
    (if u then d1.getD i Tetrad.A else d2.getD i Tetrad.A) ::
      build_offspring d1 d2 pts fuel (i + 1) u c

def meiosis (parent1 parent2 : Genome) (r : MeiosisRand) : Genome :=
  let num_crossovers := 1 + r.num % 4
  let crossover_points := gen_crossover_points num_crossovers 0 r.raws
  let offspring_data := build_offspring parent1.data parent2.data crossover_points
    GENOME_SIZE 0 r.coin 0
  let p53 := max parent1.p53_copies parent2.p53_copies
  let offspring := ((GenomeBuilder.new.set_p53_copies p53).set_telomere_length 15000).build r.time
  let offspring := { offspring with data := offspring_data, mutations := 1 }
  let offspring :=
    if r.post_mut then
      { offspring with data := offspring.data.set (r.post_pos % GENOME_SIZE) r.post_tet }
    else offspring
  offspring.rehash.calculate_consciousness

/-- Entities reachable through the public constructors and operations:
builder construction (with arbitrary protection copies and telomere
budget), the three CRISPR edit operations, successful evolution, and
meiosis. -/
inductive Reachable : Genome → Prop
  | built (b : GenomeBuilder) (t : Int) : Reachable (b.build t)
  | edited (g : Genome) (pos : Nat) (tet : Tetrad) :
      Reachable g → Reachable (g.crispr_splice pos tet)
  | swapped (g : Genome) (pos1 pos2 : Nat) :
      Reachable g → Reachable (g.crispr_join pos1 pos2)
  | randomized (g : Genome) (pos : Nat) (tet : Tetrad) :
      Reachable g → Reachable (g.crispr_delete pos tet)
  | evolved (g g' : Genome) (r : EvolveRand) (res : EvolutionResult) :
      Reachable g → evolve_with_engine g r = .ok (g', res) → Reachable g'
  | recombined (g1 g2 : Genome) (r : MeiosisRand) :
      Reachable g1 → Reachable g2 → Reachable (meiosis g1 g2 r)

-- ═══════════════════════════════════════════════════════════════
-- Field-preservation helper lemmas
-- ═══════════════════════════════════════════════════════════════

@[simp] lemma Genome.rehash_data (g : Genome) : g.rehash.data = g.data := rfl

@[simp] lemma Genome.rehash_mutations (g : Genome) : g.rehash.mutations = g.mutations := rfl

@[simp] lemma Genome.rehash_p53 (g : Genome) : g.rehash.p53_copies = g.p53_copies := rfl

@[simp] lemma Genome.rehash_hash (g : Genome) :
    g.rehash.hash = sha256_of g.data g.mutations g.p53_copies := rfl

@[simp] lemma Genome.calc_data (g : Genome) : g.calculate_consciousness.data = g.data := rfl

@[simp] lemma Genome.calc_mutations (g : Genome) :
    g.calculate_consciousness.mutations = g.mutations := rfl

@[simp] lemma Genome.calc_p53 (g : Genome) :
    g.calculate_consciousness.p53_copies = g.p53_copies := rfl

@[simp] lemma Genome.calc_hash (g : Genome) : g.calculate_consciousness.hash = g.hash := rfl

@[simp] lemma Genome.calc_consciousness_eq (g : Genome) :
    g.calculate_consciousness.consciousness = consciousness_of g.data g.hash g.p53_copies := rfl

@[simp] lemma Genome.increment_mutations_eq (g : Genome) :
    g.increment_mutations.mutations = g.mutations + 1 := rfl

-- Concrete inputs used by counterexamples and witnesses

def g_c1_low : Genome := ⟨List.replicate 27 .A, 0, 0, 0, 0, 50, 0, 0, 0, none⟩

def g_c1_ok : Genome := ⟨List.replicate 27 .A, 0, 0, 0, 0, 15000, 0, 0, 0, none⟩

def r_c1 : EvolveRand := ⟨0, 0, 0, .A, 0, false, 0⟩

def g_c6 : Genome := ⟨List.replicate 27 .A, 0, 0, 0, 20, 15000, 0, 0, 0, none⟩

def g_c10 : Genome := ⟨List.replicate 27 .A, 0, 0, 0, 20, 15000, 0, 0, 0, none⟩

-- ═══════════════════════════════════════════════════════════════
-- Claim C1
-- ═══════════════════════════════════════════════════════════════

/-- Claim C1, counterexample: an entity with `protection_copies = 0` but
`aging_budget` already below 100 makes `evolve` fail with the Senescence
error, not with ProtectionLost, because the senescence precondition is
checked first.  This refutes the "regardless of its aging budget" part of
the claim. -/
theorem evolve_p53_zero_cex :
    g_c1_low.p53_copies = 0 ∧
    evolve_with_engine g_c1_low r_c1 = Except.error EvolutionError.senescence_exhausted ∧
    (Except.error EvolutionError.senescence_exhausted :
        Except EvolutionError (Genome × EvolutionResult)) ≠
      Except.error EvolutionError.protection_lost := by
  refine ⟨rfl, rfl, ?_⟩
  simp

/-- Claim C1 (amended): for every entity with `protection_copies = 0` whose
aging budget is not already exhausted (`aging_budget ≥ 100`), `evolve`
fails with the ProtectionLost error; the call returns only the error, so
no entity state is produced or modified. -/
theorem evolve_p53_zero_protection_lost (base : Genome) (r : EvolveRand)
    (hp : base.p53_copies = 0) (ht : 100 ≤ base.telomere_length) :
    evolve_with_engine base r = Except.error EvolutionError.protection_lost := by
  unfold evolve_with_engine
  rw [if_neg (by omega), if_pos hp]

theorem evolve_p53_zero_protection_lost_witness :
    g_c1_ok.p53_copies = 0 ∧ 100 ≤ g_c1_ok.telomere_length ∧
    evolve_with_engine g_c1_ok r_c1 = Except.error EvolutionError.protection_lost :=
  ⟨rfl, by decide, evolve_p53_zero_protection_lost g_c1_ok r_c1 rfl (by decide)⟩

-- ═══════════════════════════════════════════════════════════════
-- Claim C6
-- ═══════════════════════════════════════════════════════════════

/-- Claim C6: `divide` refuses (returns false, changing nothing) when the
aging budget is below 100 or the division count has reached the Hayflick
limit of 50; otherwise it subtracts a random amount in [50,150) from the
budget (saturating at 0, so the budget never underflows), increments the
division count and returns true. -/
theorem divide_spec (g : Genome) (r : Nat) :
    ((g.telomere_length < 100 ∨ HAYFLICK_LIMIT ≤ g.division_count) →
      g.divide r = (false, g)) ∧
    (100 ≤ g.telomere_length → g.division_count < HAYFLICK_LIMIT →
      g.divide r =
        (true, { g with telomere_length := g.telomere_length - (50 + r % 100),
                        division_count := g.division_count + 1 }) ∧
      50 ≤ 50 + r % 100 ∧ 50 + r % 100 < 150 ∧
      ((g.telomere_length - (50 + r % 100) : Nat) : Int) =
        max 0 ((g.telomere_length : Int) - ((50 + r % 100 : Nat) : Int))) := by
  constructor
  · intro h
    unfold Genome.divide
    rw [if_pos h]
  · intro h1 h2
    unfold Genome.divide
    rw [if_neg (by omega)]
    refine ⟨rfl, by omega, by omega, by omega⟩

theorem divide_spec_witness :
    100 ≤ g_c6.telomere_length ∧ g_c6.division_count < HAYFLICK_LIMIT ∧
    g_c6.divide 0 =
      (true, { g_c6 with telomere_length := 14950, division_count := 1 }) :=
  ⟨by decide, by decide, ((divide_spec g_c6 0).2 (by decide) (by decide)).1⟩

-- ═══════════════════════════════════════════════════════════════
-- Claim C8
-- ═══════════════════════════════════════════════════════════════

/-- Claim C8: four `rotate` calls return the engine to its starting
rotation state, and the total rotation counter grows by exactly 4. -/
theorem rotate_four_cycle (e : RotationEngine) (t1 t2 t3 t4 : Int) :
    ((((e.rotate t1).rotate t2).rotate t3).rotate t4).current = e.current ∧
    ((((e.rotate t1).rotate t2).rotate t3).rotate t4).total_rotations =
      e.total_rotations + 4 := by
  obtain ⟨c, tot, a0, a90, a180, a270, act, lt⟩ := e
  cases c <;> simp [RotationEngine.rotate, DynamicRotation.next]

-- ═══════════════════════════════════════════════════════════════
-- Claim C9
-- ═══════════════════════════════════════════════════════════════

/-- Claim C9: `rotate_to` always ends with the current state equal to the
target, and performs at most 3 `rotate` calls (the total counter grows by
at most 3). -/
theorem rotate_to_reaches (e : RotationEngine) (target : DynamicRotation) (ts : Nat → Int) :
    (e.rotate_to target ts).current = target ∧
    (e.rotate_to target ts).total_rotations ≤ e.total_rotations + 3 := by
  obtain ⟨c, tot, a0, a90, a180, a270, act, lt⟩ := e
  cases c <;> cases target <;>
    simp [RotationEngine.rotate_to, RotationEngine.rotate_to_aux, RotationEngine.rotate,
      DynamicRotation.next]

-- ═══════════════════════════════════════════════════════════════
-- Claim C10
-- ═══════════════════════════════════════════════════════════════

/-- Claim C10: an entity whose sequence contains no G symbols has
signal-balance ratio equal to the maximum representable f64 value, and its
suggested rotation state is therefore Active (Rot0). -/
theorem rna_signal_no_g (g : Genome) (hg : g.data.count Tetrad.G = 0) :
    g.rna_signal = f64_max ∧ g.suggested_rotation = DynamicRotation.Rot0 := by
  have h1 : g.rna_signal = f64_max := by
    simp [Genome.rna_signal, Genome.tg_counts, hg]
  refine ⟨h1, ?_⟩
  unfold Genome.suggested_rotation
  rw [h1, if_pos]
  norm_num [f64_max]

theorem rna_signal_no_g_witness :
    g_c10.data.count Tetrad.G = 0 ∧
    (g_c10.rna_signal = f64_max ∧ g_c10.suggested_rotation = DynamicRotation.Rot0) :=
  ⟨by decide, rna_signal_no_g g_c10 (by decide)⟩

-- ═══════════════════════════════════════════════════════════════
-- Claim C5
-- ═══════════════════════════════════════════════════════════════

/-- A 3×3×3 arrangement whose 90° face rotation preserves exactly 18 of
the 27 symbol positions. -/
def data18 : List Tetrad :=
  [.A, .A, .A, .A, .A, .A, .A, .A, .A,
   .A, .A, .A, .A, .A, .T, .A, .T, .A,
   .A, .A, .G, .T, .A, .T, .A, .A, .T]

/-- Claim C5, counterexample: this sequence preserves exactly 18 of 27
positions (= 2/3) under the 90° rotation, so the claimed "at least 2/3"
condition holds, yet the code's guard `matches > 27 * 2 / 3` is false and
the +5000 bonus is not added. -/
theorem rotational_symmetry_threshold_cex :
    rotation_matches data18 90 = 18 ∧
    2 * GENOME_SIZE ≤ 3 * rotation_matches data18 90 ∧
    has_rotational_symmetry data18 90 = false ∧
    (if has_rotational_symmetry data18 90 then 5000 else 0) = 0 := by
  decide

/-- Claim C5 (amended): the rotational-symmetry bonus of +5000
(resp. +3000, +2000) is added exactly when the 90° (resp. 180°, 270°) face
rotation preserves strictly more than 18 of the 27 symbol positions
(i.e. at least 19, strictly more than 2/3). -/
theorem rotational_bonus_strict (data : List Tetrad) :
    rotational_bonus data =
      (if 18 < rotation_matches data 90 then 5000 else 0) +
      (if 18 < rotation_matches data 180 then 3000 else 0) +
      (if 18 < rotation_matches data 270 then 2000 else 0) := by
  have h : GENOME_SIZE * 2 / 3 = 18 := by decide
  simp [rotational_bonus, has_rotational_symmetry, h]

-- ═══════════════════════════════════════════════════════════════
-- Claim C3
-- ═══════════════════════════════════════════════════════════════

lemma build_offspring_length (d1 d2 : List Tetrad) (pts : List Nat) :
    ∀ (fuel i : Nat) (u : Bool) (c : Nat),
      (build_offspring d1 d2 pts fuel i u c).length = fuel := by
  intro fuel
  induction fuel with
  | zero => intro i u c; rfl
  | succ n ih => intro i u c; simp [build_offspring, ih]

lemma build_offspring_getD (d1 d2 : List Tetrad) (pts : List Nat) :
    ∀ (fuel i : Nat) (u : Bool) (c j : Nat), j < fuel →
      (build_offspring d1 d2 pts fuel i u c).getD j Tetrad.A = d1.getD (i + j) Tetrad.A ∨
      (build_offspring d1 d2 pts fuel i u c).getD j Tetrad.A = d2.getD (i + j) Tetrad.A := by
  intro fuel
  induction fuel with
  | zero => intro i u c j hj; omega
  | succ n ih =>
    intro i u c j hj
    simp only [build_offspring]
    cases j with
    | zero =>
      simp only [List.getD_cons_zero, Nat.add_zero]
      split <;> split <;> simp
    | succ m =>
      simp only [List.getD_cons_succ]
      rw [show i + (m + 1) = i + 1 + m by omega]
      exact ih (i + 1) _ _ m (by omega)

def g_mA : Genome := ⟨List.replicate 27 .A, 0, 0, 0, 20, 15000, 0, 0, 0, none⟩

def g_mT : Genome := ⟨List.replicate 27 .T, 0, 0, 0, 20, 15000, 0, 0, 0, none⟩

def r_c3_bad : MeiosisRand := ⟨0, [0], true, true, 0, .T, 0⟩

def r_c3_ok : MeiosisRand := ⟨0, [0], true, false, 0, .A, 0⟩

/-- Claim C3, counterexample: when the 5% post-meiotic mutation fires, the
mutated position receives a random symbol that can match neither parent:
with two all-A parents and a post-meiotic draw writing T at position 0,
the offspring's symbol at position 0 comes from neither parent. -/
theorem meiosis_post_mutation_cex :
    ¬ ((meiosis g_mA g_mA r_c3_bad).data.getD 0 Tetrad.A = g_mA.data.getD 0 Tetrad.A ∨
       (meiosis g_mA g_mA r_c3_bad).data.getD 0 Tetrad.A = g_mA.data.getD 0 Tetrad.A) := by
  decide

/-- Claim C3 (amended): `meiosis` always yields a 27-length sequence, and
whenever the 5% post-meiotic mutation does not fire, every position's
symbol equals the symbol at the corresponding position of one of the two
parents. -/
theorem meiosis_length_and_parent_symbols (p1 p2 : Genome) (r : MeiosisRand) :
    (meiosis p1 p2 r).data.length = 27 ∧
    (r.post_mut = false → ∀ i, i < 27 →
      (meiosis p1 p2 r).data.getD i Tetrad.A = p1.data.getD i Tetrad.A ∨
      (meiosis p1 p2 r).data.getD i Tetrad.A = p2.data.getD i Tetrad.A) := by
  constructor
  · by_cases hpm : r.post_mut <;>
      simp [meiosis, hpm, build_offspring_length, GENOME_SIZE]
  · intro hpm i hi
    simp only [meiosis, hpm, if_false, Bool.false_eq_true, Genome.rehash_data,
      Genome.calc_data]
    have h := build_offspring_getD p1.data p2.data
      (gen_crossover_points (1 + r.num % 4) 0 r.raws) GENOME_SIZE 0 r.coin 0 i
      (by simpa [GENOME_SIZE] using hi)
    simpa using h

theorem meiosis_parent_symbols_witness :
    r_c3_ok.post_mut = false ∧ (0 : Nat) < 27 ∧
    ((meiosis g_mA g_mT r_c3_ok).data.getD 0 Tetrad.A = g_mA.data.getD 0 Tetrad.A ∨
     (meiosis g_mA g_mT r_c3_ok).data.getD 0 Tetrad.A = g_mT.data.getD 0 Tetrad.A) :=
  ⟨rfl, by decide,
    (meiosis_length_and_parent_symbols g_mA g_mT r_c3_ok).2 rfl 0 (by decide)⟩

-- ═══════════════════════════════════════════════════════════════
-- Claim C4
-- ═══════════════════════════════════════════════════════════════

lemma tetrads_of_chars_isSome (l : List Char) :
    (tetrads_of_chars l).isSome = l.all (fun c => (Tetrad.from_char c).isSome) := by
  induction l with
  | nil => rfl
  | cons c cs ih =>
    simp only [tetrads_of_chars, List.all_cons]
    cases hc : Tetrad.from_char c with
    | none => simp [hc]
    | some t =>
      cases hts : tetrads_of_chars cs with
      | none =>
        have ih2 : cs.all (fun c => (Tetrad.from_char c).isSome) = false := by
          rw [← ih, hts]; rfl
        simp [hc, hts, ih2]
      | some ts =>
        have ih2 : cs.all (fun c => (Tetrad.from_char c).isSome) = true := by
          rw [← ih, hts]; rfl
        simp [hc, hts, ih2]

lemma build_fields (b : GenomeBuilder) (t : Int) :
    (b.build t).data = b.data ∧ (b.build t).mutations = 0 ∧
    (b.build t).p53_copies = b.p53_copies ∧
    (b.build t).telomere_length = b.telomere_length ∧
    (b.build t).hash = sha256_of b.data 0 20 ∧
    (b.build t).consciousness =
      consciousness_of b.data (sha256_of b.data 0 20) b.p53_copies :=
  ⟨rfl, rfl, rfl, rfl, rfl, rfl⟩

def dna_x : List Char := List.replicate 27 'X'

/-- Claim C4, counterexample: a sequence of exactly 27 characters that are
not drawn from {A,T,G,C} makes the builder fail, refuting "for every input
sequence of length exactly 27 (any characters), build succeeds". -/
theorem from_dna_invalid_chars_cex :
    dna_x.length = 27 ∧ GenomeBuilder.from_dna dna_x = none := by
  constructor
  · decide
  · rfl

/-- Claim C4 (amended): the builder succeeds if and only if the input has
length exactly 27 and every character decodes to one of the four symbols
(case-insensitively); on success the built entity carries the computed
hash and score. -/
theorem from_dna_spec (dna : List Char) :
    ((GenomeBuilder.from_dna dna).isSome ↔
      dna.length = 27 ∧ ∀ c ∈ dna, (Tetrad.from_char c).isSome) ∧
    (∀ b : GenomeBuilder, GenomeBuilder.from_dna dna = some b → ∀ t : Int,
      (b.build t).data = b.data ∧
      (b.build t).hash = sha256_of b.data 0 20 ∧
      (b.build t).consciousness =
        consciousness_of b.data (sha256_of b.data 0 20) b.p53_copies) := by
  constructor
  · by_cases hl : dna.length = 27
    · simp [GenomeBuilder.from_dna, GENOME_SIZE, hl, tetrads_of_chars_isSome,
        List.all_eq_true]
    · simp [GenomeBuilder.from_dna, GENOME_SIZE, hl]
  · intro b _ t
    exact ⟨(build_fields b t).1, (build_fields b t).2.2.2.2.1, (build_fields b t).2.2.2.2.2⟩

def dna_ok : List Char := List.replicate 27 'A'

theorem from_dna_spec_witness :
    (GenomeBuilder.from_dna dna_ok).isSome ∧
    (dna_ok.length = 27 ∧ ∀ c ∈ dna_ok, (Tetrad.from_char c).isSome) :=
  ⟨((from_dna_spec dna_ok).1).mpr ⟨by decide, by decide⟩, by decide, by decide⟩

-- ═══════════════════════════════════════════════════════════════
-- Claim C7
-- ═══════════════════════════════════════════════════════════════

lemma gen_points_bounds :
    ∀ (n last : Nat) (raws : List Nat),
      (∀ p ∈ gen_crossover_points n last raws, last + 5 ≤ p ∧ p ≤ 25) ∧
      List.Chain' (fun p q => p + 5 ≤ q) (gen_crossover_points n last raws) ∧
      (gen_crossover_points n last raws).length ≤ n := by
  intro n
  induction n with
  | zero => intro last raws; simp [gen_crossover_points]
  | succ m ih =>
    intro last raws
    show
      (∀ p ∈ gen_crossover_points (m + 1) last raws, last + 5 ≤ p ∧ p ≤ 25) ∧
      List.Chain' (fun p q => p + 5 ≤ q) (gen_crossover_points (m + 1) last raws) ∧
      (gen_crossover_points (m + 1) last raws).length ≤ m + 1
    by_cases hlt : 25 ≤ last + 5
    · have hstop : gen_crossover_points (m + 1) last raws = [] := by
        simp only [gen_crossover_points, GENOME_SIZE]
        rw [if_pos (by omega)]
      simp [hstop]
    · push_neg at hlt
      have hm : raws.headD 0 % (26 - (last + 5)) < 26 - (last + 5) :=
        Nat.mod_lt _ (by omega)
      have hstep : gen_crossover_points (m + 1) last raws =
          (last + 5 + raws.headD 0 % (26 - (last + 5))) ::
            gen_crossover_points m (last + 5 + raws.headD 0 % (26 - (last + 5))) raws.tail := by
        simp only [gen_crossover_points, GENOME_SIZE]
        rw [if_neg (by omega)]
        rw [show min (last + 5) (27 - 2) = last + 5 by omega]
      rw [hstep]
      set pt := last + 5 + raws.headD 0 % (26 - (last + 5)) with hpt
      have hptle : pt ≤ 25 := by omega
      obtain ⟨ihm, ihc, ihl⟩ := ih pt raws.tail
      refine ⟨?_, ?_, by simpa using ihl⟩
      · intro p hp
        rcases List.mem_cons.mp hp with h | h
        · subst h
          exact ⟨by omega, hptle⟩
        · have := ihm p h
          exact ⟨by omega, this.2⟩
      · rw [List.chain'_cons']
        refine ⟨?_, ihc⟩
        intro q hq
        have hqmem : q ∈ gen_crossover_points m pt raws.tail :=
          List.mem_of_mem_head? hq
        exact (ihm q hqmem).1

def r_c7 : MeiosisRand := ⟨1, [5, 3], true, false, 0, .A, 0⟩

/-- Claim C7: crossover chooses between 1 and 4 points, strictly
increasing with at least 5 positions between consecutive points, and with
points [10, 18] and parent 1 supplying position 0 the offspring takes
positions 0–9 from parent 1, 10–17 from parent 2 and 18–26 from
parent 1. -/
theorem meiosis_crossover_points_spec :
    (∀ r : MeiosisRand,
      1 ≤ (gen_crossover_points (1 + r.num % 4) 0 r.raws).length ∧
      (gen_crossover_points (1 + r.num % 4) 0 r.raws).length ≤ 4 ∧
      List.Chain' (fun p q => p + 5 ≤ q) (gen_crossover_points (1 + r.num % 4) 0 r.raws)) ∧
    (∀ (p1 p2 : Genome) (i : Nat), i < 27 →
      (meiosis p1 p2 r_c7).data.getD i Tetrad.A =
        if i < 10 then p1.data.getD i Tetrad.A
        else if i < 18 then p2.data.getD i Tetrad.A
        else p1.data.getD i Tetrad.A) := by
  constructor
  · intro r
    obtain ⟨hm, hc, hl⟩ := gen_points_bounds (1 + r.num % 4) 0 r.raws
    refine ⟨?_, by omega, hc⟩
    rw [show 1 + r.num % 4 = r.num % 4 + 1 by omega]
    simp only [gen_crossover_points]
    rw [if_neg (by simp only [GENOME_SIZE]; omega)]
    simp
  · intro p1 p2 i hi
    have hd : (meiosis p1 p2 r_c7).data =
        build_offspring p1.data p2.data [10, 18] GENOME_SIZE 0 true 0 := by
      simp only [meiosis, r_c7, Genome.rehash_data, Genome.calc_data]
      rfl
    rw [hd]
    interval_cases i <;> rfl

theorem meiosis_crossover_points_spec_witness :
    (0 : Nat) < 27 ∧
    (meiosis g_mA g_mT r_c7).data.getD 0 Tetrad.A = g_mA.data.getD 0 Tetrad.A := by
  refine ⟨by decide, ?_⟩
  have h := meiosis_crossover_points_spec.2 g_mA g_mT 0 (by decide)
  simpa using h

-- ═══════════════════════════════════════════════════════════════
-- Claim C2
-- ═══════════════════════════════════════════════════════════════

/-- The protection-copy value that actually went into the last rehash of a
reachable entity: freshly built entities (mutation count 0) were hashed
with the builder default 20, all others with their current value. -/
def hash_p53 (g : Genome) : Nat := if g.mutations = 0 then 20 else g.p53_copies

def GoodState (g : Genome) : Prop :=
  g.hash = sha256_of g.data g.mutations (hash_p53 g) ∧
  g.consciousness = consciousness_of g.data g.hash g.p53_copies

lemma good_after_rehash_calc (g : Genome) (h : g.mutations ≠ 0) :
    GoodState (g.rehash.calculate_consciousness) := by
  constructor
  · simp [hash_p53, h]
  · simp

lemma good_build (b : GenomeBuilder) (t : Int) : GoodState (b.build t) :=
  ⟨rfl, rfl⟩

lemma good_crispr_splice (g : Genome) (pos : Nat) (tet : Tetrad) (hg : GoodState g) :
    GoodState (g.crispr_splice pos tet) := by
  unfold Genome.crispr_splice
  split
  · exact good_after_rehash_calc _ (by simp)
  · exact hg

lemma good_crispr_join (g : Genome) (pos1 pos2 : Nat) (hg : GoodState g) :
    GoodState (g.crispr_join pos1 pos2) := by
  unfold Genome.crispr_join
  split
  · exact good_after_rehash_calc _ (by simp)
  · exact hg

lemma good_crispr_delete (g : Genome) (pos : Nat) (tet : Tetrad) (hg : GoodState g) :
    GoodState (g.crispr_delete pos tet) := by
  unfold Genome.crispr_delete
  split
  · exact good_after_rehash_calc _ (by simp)
  · exact hg

lemma good_meiosis (p1 p2 : Genome) (r : MeiosisRand) : GoodState (meiosis p1 p2 r) := by
  unfold meiosis
  apply good_after_rehash_calc
  by_cases hpm : r.post_mut <;> simp [hpm]

lemma good_evolve (g g' : Genome) (r : EvolveRand) (res : EvolutionResult)
    (h : evolve_with_engine g r = .ok (g', res)) : GoodState g' := by
  unfold evolve_with_engine at h
  by_cases h1 : g.telomere_length < 100
  · rw [if_pos h1] at h
    exact absurd h (by simp)
  · rw [if_neg h1] at h
    by_cases h2 : g.p53_copies = 0
    · rw [if_pos h2] at h
      exact absurd h (by simp)
    · rw [if_neg h2] at h
      dsimp only at h
      split at h
      · exact absurd h (by simp)
      · simp only [Except.ok.injEq, Prod.mk.injEq] at h
        obtain ⟨hB, _⟩ := h
        subst hB
        exact good_after_rehash_calc _ (by simp)

lemma reachable_good : ∀ g : Genome, Reachable g → GoodState g := by
  intro g h
  induction h with
  | built b t => exact good_build b t
  | edited g pos tet hg ih => exact good_crispr_splice g pos tet ih
  | swapped g pos1 pos2 hg ih => exact good_crispr_join g pos1 pos2 ih
  | randomized g pos tet hg ih => exact good_crispr_delete g pos tet ih
  | evolved g g' r res hg hok ih => exact good_evolve g g' r res hok
  | recombined g1 g2 r h1 h2 ih1 ih2 => exact good_meiosis g1 g2 r

/-- Claim C2, counterexample: the builder applies its protection-copy
override after the hash has already been computed with the default value
20 and never rehashes, so an entity built in reinforced (whale) mode with
protection_copies = 40 carries a hash over (sequence, 0, 20), not over its
current triple (sequence, 0, 40). -/
theorem hash_current_triple_cex :
    ¬ (∀ g : Genome, Reachable g → g.hash = sha256_of g.data g.mutations g.p53_copies) := by
  intro hall
  have h := hall (GenomeBuilder.new.whale_mode.build 0) (Reachable.built _ _)
  revert h
  decide

/-- Claim C2 (amended): for every reachable entity, `content_hash` is the
256-bit digest of (sequence, mutation_count, p) where p is the current
`protection_copies` once the entity has a nonzero mutation count, and the
builder default 20 for freshly built entities (mutation count 0) —
regardless of the protection value the entity was built with; the score
is recomputed from the sequence, the stored hash and the current
protection copies, and consequently it is a pure function of
(sequence, mutation_count, protection_copies) across reachable entities. -/
theorem reachable_hash_and_score (g g' : Genome) (hg : Reachable g) (hg' : Reachable g') :
    g.hash = sha256_of g.data g.mutations (hash_p53 g) ∧
    g.consciousness = consciousness_of g.data g.hash g.p53_copies ∧
    (g.data = g'.data → g.mutations = g'.mutations → g.p53_copies = g'.p53_copies →
      g.hash = g'.hash ∧ g.consciousness = g'.consciousness) := by
  obtain ⟨h1, h2⟩ := reachable_good g hg
  obtain ⟨h1', h2'⟩ := reachable_good g' hg'
  refine ⟨h1, h2, fun hd hm hp => ?_⟩
  have hh : g.hash = g'.hash := by
    rw [h1, h1']
    unfold hash_p53
    rw [hd, hm, hp]
  exact ⟨hh, by rw [h2, h2', hd, hp, hh]⟩

theorem reachable_hash_and_score_witness :
    (GenomeBuilder.new.build 0).hash =
      sha256_of (GenomeBuilder.new.build 0).data (GenomeBuilder.new.build 0).mutations
        (hash_p53 (GenomeBuilder.new.build 0)) ∧
    (GenomeBuilder.new.build 0).consciousness =
      consciousness_of (GenomeBuilder.new.build 0).data (GenomeBuilder.new.build 0).hash
        (GenomeBuilder.new.build 0).p53_copies :=
  ⟨(reachable_hash_and_score (GenomeBuilder.new.build 0) (GenomeBuilder.new.build 0)
      (Reachable.built _ _) (Reachable.built _ _)).1,
   (reachable_hash_and_score (GenomeBuilder.new.build 0) (GenomeBuilder.new.build 0)
      (Reachable.built _ _) (Reachable.built _ _)).2.1⟩
